import Mathlib

/-!
Shallow embedding of the resilient transcript-retrieval pipeline implemented
in the file index.ts of the mcp-server-youtube-transcript repository.

Modelling conventions:
- machine numbers are Nat and Int (timestamps are Int milliseconds, so that
  the JavaScript expression Date.now() - timestamp keeps its sign);
- thrown JavaScript values are modelled by the inductive type Thrown, which
  separates McpError values (carrying a code and a message) from any other
  Error (carrying only a message), because the retry loop of getTranscript
  branches on exactly this distinction;
- effectful code is modelled by explicit state passing: the cache component
  is a pair of a directory-ready flag and a list of (file name, entry)
  records, and filesystem faults are injected through the CacheFaults
  record, because the source swallows every cache-layer exception;
- the two network strategies are modelled as an environment (Strategies)
  giving the outcome of each primary attempt and of the single fallback
  attempt, and getTranscript additionally returns a RunTrace recording the
  backoff delays performed, the number of strategy invocations, and whether
  the early-rethrow branch of the retry loop fired;
- recursive scanners (regular-expression matching of the fallback parser)
  are written with an explicit fuel argument initialised to the length of
  the scanned list; every step of the source loop consumes at least one
  character, so this fuel is never exhausted on the actual input.
-/

namespace YT

/-- MCP protocol error codes used by the program: InvalidParams and
InternalError from the SDK, with a third constructor standing for every
other code of the SDK enumeration. -/
inductive ErrCode where
  | invalidParams
  | internalError
  | other
deriving DecidableEq, Repr

/-- An McpError value: its code and its message, as constructed by the
source with new McpError(code, message). -/
structure McpErr where
  code : ErrCode
  message : String
deriving DecidableEq, Repr

/-- A thrown JavaScript value: either an McpError or any other Error value,
of which the source only ever reads the message property. -/
inductive Thrown where
  | mcp (e : McpErr)
  | plain (message : String)
deriving DecidableEq, Repr

/-- The message property of a thrown value. -/
def Thrown.msg : Thrown → String
  | .mcp e => e.message
  | .plain m => m

/-- CONFIG.maxRetries (index.ts line 15). -/
def maxRetries : Nat := 3

/-- CONFIG.retryBaseDelay in milliseconds (index.ts line 16). -/
def retryBaseDelay : Nat := 1000

/-- CONFIG.cacheTTL in milliseconds: 24 hours (index.ts line 18). -/
def cacheTTL : Int := 24 * 60 * 60 * 1000

/-- A cache file record, written as JSON by cacheTranscript: the transcript
text and the write timestamp (index.ts lines 30 to 33). -/
structure CacheEntry where
  transcript : String
  timestamp : Int
deriving DecidableEq, Repr

/-- Injected filesystem faults for the cache layer: failure of mkdir on
initialisation, of readFile on lookup, and of writeFile on store. The
source catches each of these and degrades silently. -/
structure CacheFaults where
  mkdirFails : Bool
  readFails : Bool
  writeFails : Bool
deriving DecidableEq, Repr

/-- The fault-free filesystem. -/
def noFaults : CacheFaults := ⟨false, false, false⟩

/-- The cache filesystem: whether the cache directory has been created
(the cacheInitialized flag, which the source sets only after a successful
mkdir), and the cache files keyed by file name. -/
structure CacheFs where
  dirReady : Bool
  entries : List (String × CacheEntry)
deriving DecidableEq, Repr

/-- The cache file name for a (videoId, lang) pair (index.ts lines 59, 85). -/
def cacheFilePath (videoId lang : String) : String :=
  videoId ++ "_" ++ lang ++ ".json"

/-- Read a cache file by name. -/
def lookupEntry (l : List (String × CacheEntry)) (key : String) : Option CacheEntry :=
  (l.find? (fun p => p.1 == key)).map (fun p => p.2)

/-- Delete a cache file by name (fs.unlink). -/
def eraseEntry (l : List (String × CacheEntry)) (key : String) : List (String × CacheEntry) :=
  l.filter (fun p => p.1 != key)

/-- Write a cache file by name, replacing any previous file (fs.writeFile
overwrites whole files). -/
def insertEntry (l : List (String × CacheEntry)) (key : String) (e : CacheEntry) :
    List (String × CacheEntry) :=
  (key, e) :: eraseEntry l key

/-- initializeCache (index.ts lines 41 to 51): returns early when already
initialised; otherwise attempts mkdir, and on failure logs and continues
without caching, leaving the ready flag unset. -/
def initializeCache (f : CacheFaults) (s : CacheFs) : CacheFs :=
  if s.dirReady then s
  else if f.mkdirFails then s
  else { s with dirReady := true }

/-- getCachedTranscript (index.ts lines 56 to 77): initialise, read the
cache file, and if the entry is younger than the TTL return its text; an
expired entry is unlinked and the lookup misses; an unreadable or missing
file is a miss, never an error. -/
def getCachedTranscript (f : CacheFaults) (now : Int) (s : CacheFs)
    (videoId lang : String) : Option String × CacheFs :=
  let s1 := initializeCache f s
  let key := cacheFilePath videoId lang
  if f.readFails then (none, s1)
  else
    match lookupEntry s1.entries key with
    | none => (none, s1)
    | some e =>
      if now - e.timestamp < cacheTTL then (some e.transcript, s1)
      else (none, { s1 with entries := eraseEntry s1.entries key })

/-- cacheTranscript (index.ts lines 82 to 98): initialise, then write the
record; a write failure (including a missing cache directory) is logged
and swallowed, leaving the filesystem unchanged. -/
def cacheTranscript (f : CacheFaults) (now : Int) (s : CacheFs)
    (videoId lang transcript : String) : CacheFs :=
  let s1 := initializeCache f s
  if !s1.dirReady || f.writeFails then s1
  else { s1 with entries := insertEntry s1.entries (cacheFilePath videoId lang) ⟨transcript, now⟩ }

/-- The outcomes of the network strategies for one getTranscript call: the
result of the i-th invocation of the primary strategy, and the result of
the single fallback invocation. -/
structure Strategies where
  primary : Nat → Except Thrown String
  fallback : Except Thrown String

/-- Observable events of one getTranscript run: the backoff delays
performed in milliseconds, in order; the number of primary and fallback
strategy invocations; and whether the early-rethrow branch of the retry
loop fired. -/
structure RunTrace where
  delays : List Nat
  primaryCalls : Nat
  fallbackCalls : Nat
  aborted : Bool
deriving DecidableEq, Repr

/-- The trace of a run that performed no strategy call. -/
def trace0 : RunTrace := ⟨[], 0, 0, false⟩

/-- The early-rethrow test of the retry loop (index.ts line 163):
error instanceof McpError and error.code different from InternalError. -/
def shouldAbort : Thrown → Bool
  | .mcp e => e.code != ErrCode.internalError
  | .plain _ => false

/-- The JavaScript expression lastError?.message or the string placeholder
(index.ts line 184): null propagates to the placeholder, and so does an
empty message, because the empty string is falsy. -/
def lastErrMsg : Option Thrown → String
  | none => "Unknown error"
  | some e => if e.msg = "" then "Unknown error" else e.msg

/-- JavaScript truthiness of a string-or-null value, as tested by
the statement if (cachedTranscript) at index.ts line 137: null and the
empty string are falsy. -/
def jsTruthy : Option String → Bool
  | none => false
  | some t => t != ""

/-- The retry loop and fallback phase of getTranscript (index.ts lines
144 to 186), structurally recursive on the number of remaining primary
attempts. Before every attempt after the first the loop performs a delay
of retryBaseDelay * 2 ^ (attempt - 1) milliseconds. A primary success is
cached and returned. A primary failure is rethrown at once when
shouldAbort holds, and otherwise retained as lastError. When the attempts
are exhausted the fallback runs once: its success is cached and returned,
and its failure produces the terminal McpError referencing lastError. -/
def primaryPhase (f : CacheFaults) (now : Int) (st : Strategies) (s : CacheFs)
    (videoId lang : String) :
    Nat → Nat → Option Thrown → List Nat → Except Thrown String × CacheFs × RunTrace
  | 0, attempt, lastErr, delays =>
    match st.fallback with
    | .ok t =>
      (.ok t, cacheTranscript f now s videoId lang t, ⟨delays, attempt, 1, false⟩)
    | .error _ =>
      (.error (.mcp ⟨.internalError,
          "Failed to retrieve transcript after multiple attempts: " ++ lastErrMsg lastErr⟩),
        s, ⟨delays, attempt, 1, false⟩)
  | remaining + 1, attempt, lastErr, delays =>
    let delays1 := if attempt > 0 then delays ++ [retryBaseDelay * 2 ^ (attempt - 1)] else delays
    match st.primary attempt with
    | .ok t =>
      (.ok t, cacheTranscript f now s videoId lang t, ⟨delays1, attempt + 1, 0, false⟩)
    | .error e =>
      if shouldAbort e then (.error e, s, ⟨delays1, attempt + 1, 0, true⟩)
      else primaryPhase f now st s videoId lang remaining (attempt + 1) (some e) delays1

/-- getTranscript (index.ts lines 134 to 187): consult the cache first and
return a truthy cached text directly; otherwise run the retry loop over
the primary strategy followed by the single fallback attempt. -/
def getTranscript (f : CacheFaults) (now : Int) (st : Strategies) (s : CacheFs)
    (videoId lang : String) : Except Thrown String × CacheFs × RunTrace :=
  let r := getCachedTranscript f now s videoId lang
  if jsTruthy r.1 then (.ok (r.1.getD ""), r.2, trace0)
  else primaryPhase f now st r.2 videoId lang maxRetries 0 none []

/-- The whitespace predicate used to model the JavaScript String.trim over
the character set occurring in this domain. -/
def jsWhitespaceChar (c : Char) : Bool :=
  c == ' ' || c == '\t' || c == '\n' || c == '\r'

/-- JavaScript String.trim: remove whitespace from both ends. -/
def jsTrim (s : String) : String :=
  String.mk (((s.data.dropWhile jsWhitespaceChar).reverse.dropWhile jsWhitespaceChar).reverse)

/-- JavaScript Array.join with a single-space separator. -/
def joinSp : List String → String
  | [] => ""
  | [a] => a
  | a :: b :: rest => a ++ " " ++ joinSp (b :: rest)

/-- Substring search on character lists, modelling JavaScript
String.includes. -/
def hasSub : List Char → List Char → Bool
  | [], needle => needle.isEmpty
  | c :: rest, needle => needle.isPrefixOf (c :: rest) || hasSub rest needle

/-- JavaScript String.includes. -/
def strIncludes (s sub : String) : Bool :=
  hasSub s.data sub.data

/-- A caption line as delivered by the external captioning service
(index.ts lines 24 to 28); only the text field is ever consumed. -/
structure TranscriptLine where
  text : String
  start : Int
  dur : Int

/-- formatTranscript (index.ts lines 283 to 288): trim every line, drop
empty lines, join the survivors with a single space. -/
def formatTranscript (ts : List TranscriptLine) : String :=
  joinSp ((ts.map (fun l => jsTrim l.text)).filter (fun t => t.data.length > 0))

/-- The outcome of the external getSubtitles call made by the primary
strategy: either the caption lines, or a thrown error of which the source
reads the message. -/
inductive Upstream where
  | ok (lines : List TranscriptLine)
  | err (message : String)

/-- fetchTranscriptWithCaptionsScraper (index.ts lines 192 to 230): format
a successful caption list; wrap any upstream failure into an McpError with
code InternalError, choosing between the rate-limit wording and the
generic wording by scanning the upstream message for blocking markers. -/
def fetchTranscriptWithCaptionsScraper (u : Upstream) : Except Thrown String :=
  match u with
  | .ok lines => .ok (formatTranscript lines)
  | .err msg =>
    if strIncludes msg "429" || strIncludes msg "too many requests" ||
        strIncludes msg "blocked" || strIncludes msg "forbidden" then
      .error (.mcp ⟨.internalError, "YouTube might be rate limiting or blocking this IP: " ++ msg⟩)
    else
      .error (.mcp ⟨.internalError, "Primary transcript method failed: " ++ msg⟩)

/-- The outcome of the JavaScript expression new URL(input): either the
constructor throws (the input is not a well-formed URL), or it yields a
hostname, a pathname, and the decoded query parameters in order. -/
inductive URLParse where
  | notURL
  | parsed (hostname pathname : String) (query : List (String × String))

/-- URLSearchParams.get: the value of the first parameter with the given
name, or null. -/
def getParam (q : List (String × String)) (key : String) : Option String :=
  (q.find? (fun p => p.1 == key)).map (fun p => p.2)

/-- A character of the video-identifier alphabet [A-Za-z0-9_-]. -/
def isIdChar (c : Char) : Bool :=
  c.isAlphanum || c == '_' || c == '-'

/-- The test of the regular expression for an 11-character identifier over
the alphabet [A-Za-z0-9_-] (index.ts line 122). -/
def matchesIdPattern (s : String) : Bool :=
  s.data.length == 11 && s.data.all isIdChar

/-- The catch branch of extractYoutubeId (index.ts lines 120 to 126):
accept the raw input exactly when it matches the identifier pattern. -/
def rawIdCheck (input : String) : Except McpErr String :=
  if matchesIdPattern input then .ok input
  else .error ⟨.invalidParams, "Invalid YouTube video ID: " ++ input⟩

/-- extractYoutubeId (index.ts lines 103 to 129). The p argument is the
outcome of new URL(input). An empty input fails at once. For the
short-link host the identifier is the pathname without its leading slash,
cut at the first question mark. For a host containing the main domain the
identifier is the v query parameter; a missing or empty (falsy) value
throws inside the try block, and that throw is caught by the catch branch,
which then applies the raw-identifier test to the whole input. An
unrecognised host fails outside the try block. A non-URL input goes
through the raw-identifier test. -/
def extractYoutubeId (input : String) (p : URLParse) : Except McpErr String :=
  if input = "" then .error ⟨.invalidParams, "YouTube URL or ID is required"⟩
  else
    match p with
    | .notURL => rawIdCheck input
    | .parsed host path query =>
      if host = "youtu.be" then
        .ok (String.mk ((path.data.drop 1).takeWhile (fun c => c != '?')))
      else if strIncludes host "youtube.com" then
        match getParam query "v" with
        | some v => if v = "" then rawIdCheck input else .ok v
        | none => rawIdCheck input
      else .error ⟨.invalidParams, "Could not extract video ID from: " ++ input⟩

/-- The opening literal of the fallback text-span pattern. -/
def openTagList : List Char := ("<text").data

/-- The closing literal of the fallback text-span pattern. -/
def closeTagList : List Char := ("</text>").data

/-- Match the tail of a markup tag: the characters of the class excluding
the closing angle bracket, followed by that bracket. Returns the consumed
characters and the remainder, or nothing when no closing bracket exists. -/
def tagClose : List Char → Option (List Char × List Char)
  | [] => none
  | c :: rest =>
    if c = '>' then some ([c], rest)
    else
      match tagClose rest with
      | some (a, r) => some (c :: a, r)
      | none => none

/-- Match the lazily quantified span content: the shortest run of
non-newline characters after which the closing literal follows. Returns
the content and the remainder after the closing literal. The dot of the
pattern does not match a newline, so a newline before the closing literal
fails the match, as does the end of input. -/
def lazyContent : List Char → Option (List Char × List Char)
  | [] => none
  | c :: rest =>
    if closeTagList.isPrefixOf (c :: rest) then
      some ([], (c :: rest).drop closeTagList.length)
    else if c = '\n' then none
    else
      match lazyContent rest with
      | some (a, r) => some (c :: a, r)
      | none => none

/-- The global match of the text-span pattern (index.ts line 259): scan
start positions left to right; at each position attempt the opening
literal, a tag tail, and the lazy content; a successful match contributes
the whole matched substring and scanning resumes after it, and a failed
position advances by one character. Fuel is the length of the scanned
list, which every step strictly decreases. -/
def matchSpansF : Nat → List Char → List (List Char)
  | 0, _ => []
  | _ + 1, [] => []
  | fuel + 1, c :: rest =>
    if openTagList.isPrefixOf (c :: rest) then
      match tagClose ((c :: rest).drop openTagList.length) with
      | some (tagPart, afterGt) =>
        match lazyContent afterGt with
        | some (content, afterClose) =>
          (openTagList ++ tagPart ++ content ++ closeTagList) :: matchSpansF fuel afterClose
        | none => matchSpansF fuel rest
      | none => matchSpansF fuel rest
    else matchSpansF fuel rest

/-- String wrapper of the global text-span match; an absent match yields
the empty list, as the source does with a null guard. -/
def matchSpans (s : String) : List String :=
  (matchSpansF s.data.length s.data).map String.mk

/-- The global markup-tag deletion (index.ts line 261): every substring
from an opening angle bracket through the next closing angle bracket is
removed; an opening bracket without a later closing bracket stays. -/
def stripTagsF : Nat → List Char → List Char
  | 0, l => l
  | _ + 1, [] => []
  | fuel + 1, c :: rest =>
    if c = '<' then
      match tagClose rest with
      | some (_, after) => stripTagsF fuel after
      | none => c :: stripTagsF fuel rest
    else c :: stripTagsF fuel rest

/-- String wrapper of the markup-tag deletion. -/
def stripTags (s : String) : String :=
  String.mk (stripTagsF s.data.length s.data)

/-- One global literal replacement, modelling a JavaScript replace with a
global literal pattern: non-overlapping occurrences are replaced left to
right and replacements are not rescanned within the same call. The
patterns used by the source are all nonempty. -/
def replaceAllF : Nat → List Char → List Char → List Char → List Char
  | 0, s, _, _ => s
  | _ + 1, [], _, _ => []
  | fuel + 1, c :: rest, pat, rep =>
    if pat.isPrefixOf (c :: rest) then
      rep ++ replaceAllF fuel ((c :: rest).drop pat.length) pat rep
    else c :: replaceAllF fuel rest pat rep

/-- String wrapper of the global literal replacement. -/
def jsReplaceAll (s pat rep : String) : String :=
  String.mk (replaceAllF s.data.length s.data pat.data rep.data)

/-- The five sequential entity replacements of the fallback parser
(index.ts lines 262 to 267), in source order: amp, lt, gt, quot,
apostrophe. -/
def unescapeFive (s : String) : String :=
  jsReplaceAll (jsReplaceAll (jsReplaceAll (jsReplaceAll
    (jsReplaceAll s "&amp;" "&") "&lt;" "<") "&gt;" ">") "&quot;" "\"") "&#39;" "\x27"

/-- The body-to-text computation of fetchTranscriptWithFallbackMethod
(index.ts lines 259 to 270), mirrored statement by statement: match all
text spans, and for each span delete the markup tags, trim, apply the five
entity replacements in source order, then join the results with a single
space. -/
def fallbackParse (xml : String) : String :=
  let lines := matchSpans xml
  let textContent := lines.map (fun line =>
    let content := jsTrim (stripTags line)
    jsReplaceAll (jsReplaceAll (jsReplaceAll (jsReplaceAll
      (jsReplaceAll content "&amp;" "&") "&lt;" "<") "&gt;" ">") "&quot;" "\"") "&#39;" "\x27")
  joinSp textContent

/-- The per-span processing stated by the specification: strip the
remaining markup tags, trim, unescape the five standard entities. -/
def processSpan (line : String) : String :=
  unescapeFive (jsTrim (stripTags line))

/-- The fallback extraction as the specification words it: extract all
text spans, process each span, join with a single space. -/
def specFallbackPipeline (xml : String) : String :=
  joinSp ((matchSpans xml).map processSpan)

end YT

namespace YT

theorem getTranscript_cacheMiss (f : CacheFaults) (now : Int) (st : Strategies) (s : CacheFs)
    (videoId lang : String)
    (hc : jsTruthy (getCachedTranscript f now s videoId lang).1 = false) :
    getTranscript f now st s videoId lang =
      primaryPhase f now st (getCachedTranscript f now s videoId lang).2 videoId lang
        maxRetries 0 none [] := by
  simp only [getTranscript]
  rw [hc]
  simp

theorem primaryPhase_succ_ok (f : CacheFaults) (now : Int) (st : Strategies) (s : CacheFs)
    (videoId lang : String) (r a : Nat) (le : Option Thrown) (dl : List Nat) (t : String)
    (h : st.primary a = .ok t) :
    primaryPhase f now st s videoId lang (r + 1) a le dl =
      (.ok t, cacheTranscript f now s videoId lang t,
        ⟨if a > 0 then dl ++ [retryBaseDelay * 2 ^ (a - 1)] else dl, a + 1, 0, false⟩) := by
  simp only [primaryPhase]
  rw [h]

theorem primaryPhase_succ_retry (f : CacheFaults) (now : Int) (st : Strategies) (s : CacheFs)
    (videoId lang : String) (r a : Nat) (le : Option Thrown) (dl : List Nat) (e : Thrown)
    (h : st.primary a = .error e) (hab : shouldAbort e = false) :
    primaryPhase f now st s videoId lang (r + 1) a le dl =
      primaryPhase f now st s videoId lang r (a + 1) (some e)
        (if a > 0 then dl ++ [retryBaseDelay * 2 ^ (a - 1)] else dl) := by
  simp only [primaryPhase]
  rw [h]
  simp [hab]

theorem primaryPhase_succ_abort (f : CacheFaults) (now : Int) (st : Strategies) (s : CacheFs)
    (videoId lang : String) (r a : Nat) (le : Option Thrown) (dl : List Nat) (e : Thrown)
    (h : st.primary a = .error e) (hab : shouldAbort e = true) :
    primaryPhase f now st s videoId lang (r + 1) a le dl =
      (.error e, s, ⟨if a > 0 then dl ++ [retryBaseDelay * 2 ^ (a - 1)] else dl, a + 1, 0, true⟩) := by
  simp only [primaryPhase]
  rw [h]
  simp [hab]

theorem primaryPhase_zero_ok (f : CacheFaults) (now : Int) (st : Strategies) (s : CacheFs)
    (videoId lang : String) (a : Nat) (le : Option Thrown) (dl : List Nat) (t : String)
    (h : st.fallback = .ok t) :
    primaryPhase f now st s videoId lang 0 a le dl =
      (.ok t, cacheTranscript f now s videoId lang t, ⟨dl, a, 1, false⟩) := by
  simp only [primaryPhase]
  rw [h]

theorem primaryPhase_zero_err (f : CacheFaults) (now : Int) (st : Strategies) (s : CacheFs)
    (videoId lang : String) (a : Nat) (le : Option Thrown) (dl : List Nat) (e : Thrown)
    (h : st.fallback = .error e) :
    primaryPhase f now st s videoId lang 0 a le dl =
      (.error (.mcp ⟨.internalError,
          "Failed to retrieve transcript after multiple attempts: " ++ lastErrMsg le⟩),
        s, ⟨dl, a, 1, false⟩) := by
  simp only [primaryPhase]
  rw [h]

/-- Claim C1: with no fresh cache entry, when the primary strategy fails
transiently on its first two attempts and succeeds on the third,
getTranscript returns the third result, performs exactly the two backoff
delays retryBaseDelay * 2 ^ 0 = 1000 ms and retryBaseDelay * 2 ^ 1 =
2000 ms (one second before attempt 2, two seconds before attempt 3), makes
exactly 3 primary attempts (hence at most 3), and never invokes the
fallback strategy. A transient failure is one the retry loop does not
rethrow, that is, one with shouldAbort false. -/
theorem claim1_primary_retry_backoff (f : CacheFaults) (now : Int) (st : Strategies)
    (s : CacheFs) (videoId lang : String) (t : String) (e0 e1 : Thrown)
    (hc : (getCachedTranscript f now s videoId lang).1 = none)
    (h0 : st.primary 0 = .error e0) (ha0 : shouldAbort e0 = false)
    (h1 : st.primary 1 = .error e1) (ha1 : shouldAbort e1 = false)
    (h2 : st.primary 2 = .ok t) :
    (getTranscript f now st s videoId lang).1 = .ok t
    ∧ (getTranscript f now st s videoId lang).2.2.delays = [1000, 2000]
    ∧ (getTranscript f now st s videoId lang).2.2.primaryCalls = 3
    ∧ (getTranscript f now st s videoId lang).2.2.fallbackCalls = 0 := by
  have hmiss : jsTruthy (getCachedTranscript f now s videoId lang).1 = false := by
    rw [hc]; rfl
  rw [getTranscript_cacheMiss f now st s videoId lang hmiss,
    show maxRetries = 2 + 1 from rfl,
    primaryPhase_succ_retry _ _ _ _ _ _ _ _ _ _ _ h0 ha0,
    show (2 : Nat) = 1 + 1 from rfl,
    primaryPhase_succ_retry _ _ _ _ _ _ _ _ _ _ _ h1 ha1,
    show (1 : Nat) = 0 + 1 from rfl,
    primaryPhase_succ_ok _ _ _ _ _ _ _ _ _ _ _ h2]
  norm_num [retryBaseDelay]

/-- Witness for claim C1 at a concrete environment. -/
theorem claim1_witness :
    (getTranscript noFaults 0
      ⟨fun i => if i == 2 then .ok "T" else .error (.mcp ⟨.internalError, "boom"⟩),
        .error (.plain "fb")⟩
      ⟨false, []⟩ "v" "en").1 = .ok "T" :=
  (claim1_primary_retry_backoff noFaults 0
    ⟨fun i => if i == 2 then .ok "T" else .error (.mcp ⟨.internalError, "boom"⟩),
      .error (.plain "fb")⟩
    ⟨false, []⟩ "v" "en" "T" (.mcp ⟨.internalError, "boom"⟩) (.mcp ⟨.internalError, "boom"⟩)
    rfl rfl rfl rfl rfl rfl).1


/-- Claim C2: when the cache misses, all three primary attempts fail
transiently, and the fallback also fails, getTranscript raises the
terminal McpError with code InternalError whose message references (here:
ends with) the message of the last primary-strategy error, and the
fallback strategy is invoked exactly once after exactly 3 primary
attempts. The hypothesis that the last message is nonempty reflects that
every primary-strategy error message is built by prefixing a nonempty
literal. -/
theorem claim2_total_failure (f : CacheFaults) (now : Int) (st : Strategies)
    (s : CacheFs) (videoId lang : String) (e0 e1 e2 fe : Thrown)
    (hc : (getCachedTranscript f now s videoId lang).1 = none)
    (h0 : st.primary 0 = .error e0) (ha0 : shouldAbort e0 = false)
    (h1 : st.primary 1 = .error e1) (ha1 : shouldAbort e1 = false)
    (h2 : st.primary 2 = .error e2) (ha2 : shouldAbort e2 = false)
    (hf : st.fallback = .error fe) (hm : e2.msg ≠ "") :
    (getTranscript f now st s videoId lang).1 =
      .error (.mcp ⟨.internalError,
        "Failed to retrieve transcript after multiple attempts: " ++ e2.msg⟩)
    ∧ (∃ pre, "Failed to retrieve transcript after multiple attempts: " ++ e2.msg
        = pre ++ e2.msg)
    ∧ (getTranscript f now st s videoId lang).2.2.fallbackCalls = 1
    ∧ (getTranscript f now st s videoId lang).2.2.primaryCalls = 3 := by
  have hmiss : jsTruthy (getCachedTranscript f now s videoId lang).1 = false := by
    rw [hc]; rfl
  rw [getTranscript_cacheMiss f now st s videoId lang hmiss,
    show maxRetries = 2 + 1 from rfl,
    primaryPhase_succ_retry _ _ _ _ _ _ _ _ _ _ _ h0 ha0,
    show (2 : Nat) = 1 + 1 from rfl,
    primaryPhase_succ_retry _ _ _ _ _ _ _ _ _ _ _ h1 ha1,
    show (1 : Nat) = 0 + 1 from rfl,
    primaryPhase_succ_retry _ _ _ _ _ _ _ _ _ _ _ h2 ha2,
    primaryPhase_zero_err _ _ _ _ _ _ _ _ _ _ hf]
  refine ⟨?_, ⟨"Failed to retrieve transcript after multiple attempts: ", rfl⟩, rfl, rfl⟩
  simp [lastErrMsg, hm]

/-- Witness for claim C2 at a concrete environment. -/
theorem claim2_witness :
    (getTranscript noFaults 0
      ⟨fun _ => .error (.mcp ⟨.internalError, "boom"⟩), .error (.plain "fb")⟩
      ⟨false, []⟩ "v" "en").1 =
    .error (.mcp ⟨.internalError,
      "Failed to retrieve transcript after multiple attempts: boom"⟩) :=
  (claim2_total_failure noFaults 0
    ⟨fun _ => .error (.mcp ⟨.internalError, "boom"⟩), .error (.plain "fb")⟩
    ⟨false, []⟩ "v" "en" (.mcp ⟨.internalError, "boom"⟩) (.mcp ⟨.internalError, "boom"⟩)
    (.mcp ⟨.internalError, "boom"⟩) (.plain "fb")
    rfl rfl rfl rfl rfl rfl rfl rfl (by decide)).1

theorem initializeCache_entries (f : CacheFaults) (s : CacheFs) :
    (initializeCache f s).entries = s.entries := by
  unfold initializeCache
  split
  · rfl
  · split
    · rfl
    · rfl

theorem initializeCache_dirReady (f : CacheFaults) (s : CacheFs) (h : f.mkdirFails = false) :
    (initializeCache f s).dirReady = true := by
  cases hd : s.dirReady <;> simp [initializeCache, hd, h]

theorem noFaults_mkdir : noFaults.mkdirFails = false := rfl

theorem noFaults_read : noFaults.readFails = false := rfl

theorem noFaults_write : noFaults.writeFails = false := rfl

theorem cacheTranscript_noFaults_entries (now : Int) (s : CacheFs) (videoId lang text : String) :
    (cacheTranscript noFaults now s videoId lang text).entries =
      insertEntry s.entries (cacheFilePath videoId lang) ⟨text, now⟩ := by
  simp only [cacheTranscript]
  rw [initializeCache_dirReady noFaults s rfl]
  simp [noFaults_write, initializeCache_entries]

theorem lookupEntry_insert_self (l : List (String × CacheEntry)) (k : String) (e : CacheEntry) :
    lookupEntry (insertEntry l k e) k = some e := by
  simp [lookupEntry, insertEntry, List.find?]

theorem lookupEntry_erase_self (l : List (String × CacheEntry)) (k : String) :
    lookupEntry (eraseEntry l k) k = none := by
  induction l with
  | nil => rfl
  | cons p rest ih =>
    cases h : p.1 == k with
    | true => simpa [eraseEntry, List.filter_cons, bne, h] using ih
    | false =>
      simp only [eraseEntry, List.filter_cons, bne, h] at ih ⊢
      simp only [Bool.not_false, if_pos rfl, lookupEntry, List.find?, h] at ih ⊢
      exact ih

/-- Claim C4: cache round-trip and expiry. Storing and then looking up
strictly within the TTL window returns exactly the stored text; looking
up at or after expiry returns absent and deletes the entry, so a
subsequent lookup is also absent; a second store with different text
followed by a fresh lookup returns the second text. -/
theorem claim4_cache_roundtrip (s : CacheFs) (videoId lang text text2 : String)
    (t0 t1 tE t2 tS tF : Int)
    (hfresh : t1 - t0 < cacheTTL) (hexp : cacheTTL ≤ tE - t0) (hfresh2 : tF - tS < cacheTTL) :
    (getCachedTranscript noFaults t1 (cacheTranscript noFaults t0 s videoId lang text)
        videoId lang).1 = some text
    ∧ (getCachedTranscript noFaults tE (cacheTranscript noFaults t0 s videoId lang text)
        videoId lang).1 = none
    ∧ lookupEntry ((getCachedTranscript noFaults tE
        (cacheTranscript noFaults t0 s videoId lang text) videoId lang).2).entries
        (cacheFilePath videoId lang) = none
    ∧ (getCachedTranscript noFaults t2 ((getCachedTranscript noFaults tE
        (cacheTranscript noFaults t0 s videoId lang text) videoId lang).2)
        videoId lang).1 = none
    ∧ (getCachedTranscript noFaults tF (cacheTranscript noFaults tS
        (cacheTranscript noFaults t0 s videoId lang text) videoId lang text2)
        videoId lang).1 = some text2 := by
  have hnot : ¬ (tE - t0 < cacheTTL) := not_lt.mpr hexp
  refine ⟨?_, ?_, ?_, ?_, ?_⟩
  · simp [getCachedTranscript, noFaults_read, initializeCache_entries,
      cacheTranscript_noFaults_entries, lookupEntry_insert_self, hfresh]
  · simp [getCachedTranscript, noFaults_read, initializeCache_entries,
      cacheTranscript_noFaults_entries, lookupEntry_insert_self, hnot]
  · simp [getCachedTranscript, noFaults_read, initializeCache_entries,
      cacheTranscript_noFaults_entries, lookupEntry_insert_self, hnot,
      lookupEntry_erase_self]
  · simp [getCachedTranscript, noFaults_read, initializeCache_entries,
      cacheTranscript_noFaults_entries, lookupEntry_insert_self, hnot,
      lookupEntry_erase_self]
  · simp [getCachedTranscript, noFaults_read, initializeCache_entries,
      cacheTranscript_noFaults_entries, lookupEntry_insert_self, hfresh2]

/-- Witness for claim C4 at concrete texts and times. -/
theorem claim4_witness :
    (getCachedTranscript noFaults 1 (cacheTranscript noFaults 0 ⟨false, []⟩ "v" "en" "a")
        "v" "en").1 = some "a" :=
  (claim4_cache_roundtrip ⟨false, []⟩ "v" "en" "a" "b" 0 1 86400000 5 86400000 86400001
    (by decide) (by decide) (by decide)).1

/-- Claim C3 (amended): a cache hit with a non-empty stored, non-expired
text is returned directly and neither fetch strategy is invoked; the run
trace is empty. The amendment excludes the empty string, which the code
treats as a miss (JavaScript truthiness of the cached value), contrary to
the claim as stated. -/
theorem claim3_cache_hit (f : CacheFaults) (now : Int) (st : Strategies) (s : CacheFs)
    (videoId lang : String) (t : String)
    (hc : (getCachedTranscript f now s videoId lang).1 = some t) (hne : t ≠ "") :
    (getTranscript f now st s videoId lang).1 = .ok t
    ∧ (getTranscript f now st s videoId lang).2.2 = trace0 := by
  have htr : jsTruthy (getCachedTranscript f now s videoId lang).1 = true := by
    rw [hc]; simp [jsTruthy, hne]
  simp only [getTranscript]
  rw [htr]
  simp [hc]

/-- Counterexample to claim C3 as stated: a fresh cache entry holding the
empty string is a stored, non-expired transcript text (the lookup itself
returns it), yet getTranscript does not return it and invokes the primary
fetch strategy, because the hit test uses JavaScript truthiness and the
empty string is falsy. -/
theorem claim3_counterexample :
    (getCachedTranscript noFaults 0 ⟨true, [("v_en.json", ⟨"", 0⟩)]⟩ "v" "en").1 = some ""
    ∧ (getTranscript noFaults 0 ⟨fun _ => .ok "X", .error (.plain "fb")⟩
        ⟨true, [("v_en.json", ⟨"", 0⟩)]⟩ "v" "en").1 = .ok "X"
    ∧ (getTranscript noFaults 0 ⟨fun _ => .ok "X", .error (.plain "fb")⟩
        ⟨true, [("v_en.json", ⟨"", 0⟩)]⟩ "v" "en").2.2.primaryCalls = 1 :=
  ⟨rfl, rfl, rfl⟩

/-- Witness for the amended claim C3 at a concrete cache state. -/
theorem claim3_witness :
    (getTranscript noFaults 0 ⟨fun _ => .error (.plain "p"), .error (.plain "fb")⟩
      ⟨true, [("v_en.json", ⟨"hi", 0⟩)]⟩ "v" "en").1 = .ok "hi" :=
  (claim3_cache_hit noFaults 0 ⟨fun _ => .error (.plain "p"), .error (.plain "fb")⟩
    ⟨true, [("v_en.json", ⟨"hi", 0⟩)]⟩ "v" "en" "hi" rfl (by decide)).1


theorem getCachedTranscript_emptyEntries (f : CacheFaults) (now : Int) (d : Bool)
    (videoId lang : String) :
    (getCachedTranscript f now ⟨d, []⟩ videoId lang).1 = none := by
  cases hr : f.readFails <;>
    simp [getCachedTranscript, hr, initializeCache_entries, lookupEntry]

theorem primaryPhase_fst_indep (st : Strategies) (r : Nat) :
    ∀ (a : Nat) (le : Option Thrown) (dl : List Nat) (f g : CacheFaults) (now1 now2 : Int)
      (s1 s2 : CacheFs) (v1 l1 v2 l2 : String),
      (primaryPhase f now1 st s1 v1 l1 r a le dl).1 =
        (primaryPhase g now2 st s2 v2 l2 r a le dl).1 := by
  induction r with
  | zero =>
    intro a le dl f g now1 now2 s1 s2 v1 l1 v2 l2
    cases hf : st.fallback with
    | ok t =>
      rw [primaryPhase_zero_ok f now1 st s1 v1 l1 a le dl t hf,
        primaryPhase_zero_ok g now2 st s2 v2 l2 a le dl t hf]
    | error e =>
      rw [primaryPhase_zero_err f now1 st s1 v1 l1 a le dl e hf,
        primaryPhase_zero_err g now2 st s2 v2 l2 a le dl e hf]
  | succ r ih =>
    intro a le dl f g now1 now2 s1 s2 v1 l1 v2 l2
    cases hp : st.primary a with
    | ok t =>
      rw [primaryPhase_succ_ok f now1 st s1 v1 l1 r a le dl t hp,
        primaryPhase_succ_ok g now2 st s2 v2 l2 r a le dl t hp]
    | error e =>
      cases hab : shouldAbort e with
      | true =>
        rw [primaryPhase_succ_abort f now1 st s1 v1 l1 r a le dl e hp hab,
          primaryPhase_succ_abort g now2 st s2 v2 l2 r a le dl e hp hab]
      | false =>
        rw [primaryPhase_succ_retry f now1 st s1 v1 l1 r a le dl e hp hab,
          primaryPhase_succ_retry g now2 st s2 v2 l2 r a le dl e hp hab]
        exact ih _ _ _ f g now1 now2 s1 s2 v1 l1 v2 l2

/-- Claim C5: cache-layer failures never fail the retrieval. First, when
directory initialisation fails on a pristine filesystem, every lookup
returns absent and every store leaves the filesystem unchanged. Second,
when the cache read fails, the lookup returns absent rather than raising.
Third, when the cache write fails, getTranscript still returns the
fetched transcript. Fourth, over an initially empty cache the result of
getTranscript is identical under any combination of injected cache
faults and under none: no cache read, write, or initialisation error is
ever propagated to the caller. -/
theorem claim5_cache_degrades_silently :
    (∀ (f : CacheFaults) (now : Int) (s : CacheFs) (videoId lang text : String),
      f.mkdirFails = true → s.dirReady = false → s.entries = [] →
      (getCachedTranscript f now s videoId lang).1 = none
      ∧ cacheTranscript f now s videoId lang text = s)
    ∧ (∀ (f : CacheFaults) (now : Int) (s : CacheFs) (videoId lang : String),
      f.readFails = true → (getCachedTranscript f now s videoId lang).1 = none)
    ∧ (∀ (f : CacheFaults) (now : Int) (st : Strategies) (s : CacheFs) (videoId lang t : String),
      f.writeFails = true → st.primary 0 = .ok t →
      (getCachedTranscript f now s videoId lang).1 = none →
      (getTranscript f now st s videoId lang).1 = .ok t)
    ∧ (∀ (f : CacheFaults) (now1 now2 : Int) (st : Strategies) (d1 d2 : Bool)
        (videoId lang : String),
      (getTranscript f now1 st ⟨d1, []⟩ videoId lang).1 =
        (getTranscript noFaults now2 st ⟨d2, []⟩ videoId lang).1) := by
  refine ⟨?_, ?_, ?_, ?_⟩
  · intro f now s videoId lang text hmk hdir hent
    have hs1 : initializeCache f s = s := by simp [initializeCache, hdir, hmk]
    constructor
    · cases hr : f.readFails <;>
        simp [getCachedTranscript, hr, hs1, hent, lookupEntry]
    · simp [cacheTranscript, hs1, hdir]
  · intro f now s videoId lang hr
    simp [getCachedTranscript, hr]
  · intro f now st s videoId lang t hw hp hc
    have hmiss : jsTruthy (getCachedTranscript f now s videoId lang).1 = false := by
      rw [hc]; rfl
    rw [getTranscript_cacheMiss f now st s videoId lang hmiss,
      show maxRetries = 2 + 1 from rfl,
      primaryPhase_succ_ok _ _ _ _ _ _ _ _ _ _ _ hp]
  · intro f now1 now2 st d1 d2 videoId lang
    have h1 : jsTruthy (getCachedTranscript f now1 ⟨d1, []⟩ videoId lang).1 = false := by
      rw [getCachedTranscript_emptyEntries]; rfl
    have h2 : jsTruthy (getCachedTranscript noFaults now2 ⟨d2, []⟩ videoId lang).1 = false := by
      rw [getCachedTranscript_emptyEntries]; rfl
    rw [getTranscript_cacheMiss _ _ _ _ _ _ h1, getTranscript_cacheMiss _ _ _ _ _ _ h2]
    exact primaryPhase_fst_indep st maxRetries 0 none [] f noFaults now1 now2 _ _
      videoId lang videoId lang

/-- Witness for claim C5 at concrete fault patterns. -/
theorem claim5_witness :
    ((getCachedTranscript ⟨true, false, false⟩ 0 ⟨false, []⟩ "v" "en").1 = none
      ∧ cacheTranscript ⟨true, false, false⟩ 0 ⟨false, []⟩ "v" "en" "t" = ⟨false, []⟩)
    ∧ (getCachedTranscript ⟨false, true, false⟩ 0 ⟨true, []⟩ "v" "en").1 = none
    ∧ (getTranscript ⟨false, false, true⟩ 0 ⟨fun _ => .ok "X", .error (.plain "fb")⟩
        ⟨true, []⟩ "v" "en").1 = .ok "X" :=
  ⟨claim5_cache_degrades_silently.1 ⟨true, false, false⟩ 0 ⟨false, []⟩ "v" "en" "t" rfl rfl rfl,
   claim5_cache_degrades_silently.2.1 ⟨false, true, false⟩ 0 ⟨true, []⟩ "v" "en" rfl,
   claim5_cache_degrades_silently.2.2.1 ⟨false, false, true⟩ 0
     ⟨fun _ => .ok "X", .error (.plain "fb")⟩ ⟨true, []⟩ "v" "en" "X" rfl rfl rfl⟩

theorem primaryPhase_never_aborted (f : CacheFaults) (now : Int) (st : Strategies)
    (s : CacheFs) (videoId lang : String)
    (hsafe : ∀ i e, st.primary i = .error e → shouldAbort e = false) :
    ∀ (r a : Nat) (le : Option Thrown) (dl : List Nat),
      (primaryPhase f now st s videoId lang r a le dl).2.2.aborted = false := by
  intro r
  induction r with
  | zero =>
    intro a le dl
    cases hf : st.fallback with
    | ok t => rw [primaryPhase_zero_ok f now st s videoId lang a le dl t hf]
    | error e => rw [primaryPhase_zero_err f now st s videoId lang a le dl e hf]
  | succ r ih =>
    intro a le dl
    cases hp : st.primary a with
    | ok t => rw [primaryPhase_succ_ok f now st s videoId lang r a le dl t hp]
    | error e =>
      rw [primaryPhase_succ_retry f now st s videoId lang r a le dl e hp (hsafe a e hp)]
      exact ih _ _ _

/-- Claim C10: every error raised by the primary strategy is an McpError
with code InternalError (the rate-limit-flavoured branch and the generic
branch both wrap the upstream error this way), such an error never
satisfies the early-rethrow test of the retry loop, and consequently a
getTranscript run whose primary failures all come from the primary
strategy never takes the early-rethrow branch: every primary failure
proceeds to the next retry attempt or to the fallback. -/
theorem claim10_primary_errors_never_abort :
    (∀ (u : Upstream) (e : Thrown), fetchTranscriptWithCaptionsScraper u = .error e →
      ∃ m, e = .mcp ⟨.internalError, m⟩)
    ∧ (∀ (u : Upstream) (e : Thrown), fetchTranscriptWithCaptionsScraper u = .error e →
      shouldAbort e = false)
    ∧ (∀ (f : CacheFaults) (now : Int) (st : Strategies) (s : CacheFs) (videoId lang : String),
      (∀ i e, st.primary i = .error e → ∃ u, fetchTranscriptWithCaptionsScraper u = .error e) →
      (getTranscript f now st s videoId lang).2.2.aborted = false) := by
  have h1 : ∀ (u : Upstream) (e : Thrown), fetchTranscriptWithCaptionsScraper u = .error e →
      ∃ m, e = .mcp ⟨.internalError, m⟩ := by
    intro u e he
    cases u with
    | ok lines => exact Except.noConfusion he
    | err msg =>
      simp only [fetchTranscriptWithCaptionsScraper] at he
      split at he
      · exact ⟨_, (Except.error.inj he).symm⟩
      · exact ⟨_, (Except.error.inj he).symm⟩
  have h2 : ∀ (u : Upstream) (e : Thrown), fetchTranscriptWithCaptionsScraper u = .error e →
      shouldAbort e = false := by
    intro u e he
    obtain ⟨m, rfl⟩ := h1 u e he
    rfl
  refine ⟨h1, h2, ?_⟩
  intro f now st s videoId lang himg
  have hsafe : ∀ i e, st.primary i = .error e → shouldAbort e = false := by
    intro i e hp
    obtain ⟨u, hu⟩ := himg i e hp
    exact h2 u e hu
  simp only [getTranscript]
  split
  · rfl
  · exact primaryPhase_never_aborted f now st _ videoId lang hsafe maxRetries 0 none []

/-- Witness for claim C10 at a concrete environment whose primary errors
are produced by the primary strategy itself. -/
theorem claim10_witness :
    (getTranscript noFaults 0
      ⟨fun _ => fetchTranscriptWithCaptionsScraper (.err "x"), .error (.plain "fb")⟩
      ⟨false, []⟩ "v" "en").2.2.aborted = false :=
  claim10_primary_errors_never_abort.2.2 noFaults 0
    ⟨fun _ => fetchTranscriptWithCaptionsScraper (.err "x"), .error (.plain "fb")⟩
    ⟨false, []⟩ "v" "en" (fun _ e hp => ⟨.err "x", hp⟩)


theorem strIncludes_main_ne_short (host : String)
    (h : strIncludes host "youtube.com" = true) : ¬ host = "youtu.be" := by
  intro he
  subst he
  exact absurd h (by decide)

theorem ne_empty_of_colon (input : String) (h : ':' ∈ input.data) : ¬ input = "" := by
  intro he
  subst he
  exact absurd h (by decide)

theorem matchesIdPattern_of_colon (input : String) (h : ':' ∈ input.data) :
    matchesIdPattern input = false := by
  cases hall : input.data.all isIdChar
  · simp [matchesIdPattern, hall]
  · exfalso
    have hid := List.all_eq_true.mp hall ':' h
    exact absurd hid (by decide)

/-- Claim C6 (amended): a VideoIdentifier returned by extractYoutubeId for
a raw (non-URL) identifier input is always an 11-character string over
the alphabet of letters, digits, underscore and hyphen, and is the input
itself; identifiers extracted from short-link or main-domain URL inputs
are returned without being validated against this pattern, and some
successful URL inputs yield identifiers violating it. The amendment
restricts the validation guarantee to the raw-identifier branch, which is
the only branch the code validates. -/
theorem claim6_raw_only_validated :
    (∀ (input out : String), extractYoutubeId input .notURL = .ok out →
      matchesIdPattern out = true ∧ out = input)
    ∧ (∃ (input host path : String) (q : List (String × String)) (out : String),
        extractYoutubeId input (.parsed host path q) = .ok out
        ∧ matchesIdPattern out = false) := by
  constructor
  · intro input out h
    by_cases he : input = ""
    · simp [extractYoutubeId, he] at h
    · simp only [extractYoutubeId, if_neg he] at h
      by_cases hp : matchesIdPattern input = true
      · simp only [rawIdCheck, if_pos hp] at h
        obtain rfl := Except.ok.inj h
        exact ⟨hp, rfl⟩
      · have hp2 : matchesIdPattern input = false := by
          cases hx : matchesIdPattern input
          · rfl
          · exact absurd hx hp
        simp [rawIdCheck, hp2] at h
  · exact ⟨"https://youtu.be/abc", "youtu.be", "/abc", [], "abc", rfl, by decide⟩

/-- Counterexample to claim C6 as stated: the short-link URL input with a
three-character path succeeds and returns a three-character identifier,
which is not an 11-character string over the identifier alphabet; no
validation is applied to URL-derived identifiers. -/
theorem claim6_counterexample :
    extractYoutubeId "https://youtu.be/abc" (.parsed "youtu.be" "/abc" []) = .ok "abc"
    ∧ matchesIdPattern "abc" = false :=
  ⟨rfl, by decide⟩

/-- Witness for the amended claim C6 at a concrete raw identifier. -/
theorem claim6_witness :
    matchesIdPattern "dQw4w9WgXcQ" = true ∧ "dQw4w9WgXcQ" = "dQw4w9WgXcQ" :=
  claim6_raw_only_validated.1 "dQw4w9WgXcQ" "dQw4w9WgXcQ" rfl

/-- Claim C7 (amended): for every main-domain URL input whose v query
parameter has a non-empty value, extractYoutubeId returns exactly that
value; for every main-domain URL input lacking a v parameter or carrying
an empty v value, it fails with an McpError with code InvalidParams; and
every non-URL input matching the 11-character pattern is returned
unchanged. The amendment adds the non-empty requirement on the v value,
which the code tests by JavaScript falsiness, to the first part; the
colon hypothesis records that the input is a URL string, whose mandatory
scheme separator lies outside the identifier alphabet. -/
theorem claim7_main_domain_and_raw :
    (∀ (input host path : String) (q : List (String × String)) (v : String),
      input ≠ "" → strIncludes host "youtube.com" = true →
      getParam q "v" = some v → v ≠ "" →
      extractYoutubeId input (.parsed host path q) = .ok v)
    ∧ (∀ (input host path : String) (q : List (String × String)),
      ':' ∈ input.data → strIncludes host "youtube.com" = true →
      (getParam q "v" = none ∨ getParam q "v" = some "") →
      ∃ m, extractYoutubeId input (.parsed host path q) = .error ⟨.invalidParams, m⟩)
    ∧ (∀ input : String, matchesIdPattern input = true →
      extractYoutubeId input .notURL = .ok input) := by
  refine ⟨?_, ?_, ?_⟩
  · intro input host path q v hne hmain hv hvne
    simp only [extractYoutubeId, if_neg hne]
    rw [if_neg (strIncludes_main_ne_short host hmain)]
    rw [if_pos hmain]
    rw [hv]
    simp [hvne]
  · intro input host path q hcolon hmain hv
    have hne := ne_empty_of_colon input hcolon
    have hpat := matchesIdPattern_of_colon input hcolon
    refine ⟨"Invalid YouTube video ID: " ++ input, ?_⟩
    simp only [extractYoutubeId, if_neg hne]
    rw [if_neg (strIncludes_main_ne_short host hmain)]
    rw [if_pos hmain]
    cases hv with
    | inl h => rw [h]; simp [rawIdCheck, hpat]
    | inr h => rw [h]; simp [rawIdCheck, hpat]
  · intro input hpat
    have hne : ¬ input = "" := by
      intro he
      subst he
      exact absurd hpat (by decide)
    simp only [extractYoutubeId, if_neg hne]
    simp [rawIdCheck, hpat]

/-- Counterexample to claim C7 as stated: a main-domain URL whose query
does contain a v parameter, with the empty string as its value, does not
make extractYoutubeId return that value; the empty value is falsy, so the
code instead throws inside the try block and the catch branch fails the
whole input against the identifier pattern. -/
theorem claim7_counterexample :
    getParam [("v", "")] "v" = some ""
    ∧ extractYoutubeId "https://www.youtube.com/watch?v="
        (.parsed "www.youtube.com" "/watch" [("v", "")]) =
      .error ⟨.invalidParams, "Invalid YouTube video ID: https://www.youtube.com/watch?v="⟩
    ∧ extractYoutubeId "https://www.youtube.com/watch?v="
        (.parsed "www.youtube.com" "/watch" [("v", "")]) ≠ .ok "" := by
  refine ⟨rfl, rfl, fun h => ?_⟩
  exact Except.noConfusion h

/-- Witness for the amended claim C7 at a concrete main-domain URL. -/
theorem claim7_witness :
    extractYoutubeId "https://www.youtube.com/watch?v=dQw4w9WgXcQ"
      (.parsed "www.youtube.com" "/watch" [("v", "dQw4w9WgXcQ")]) = .ok "dQw4w9WgXcQ" :=
  claim7_main_domain_and_raw.1 "https://www.youtube.com/watch?v=dQw4w9WgXcQ"
    "www.youtube.com" "/watch" [("v", "dQw4w9WgXcQ")] "dQw4w9WgXcQ"
    (by decide) (by decide) rfl (by decide)

/-- Claim C8: for every successful fallback response body, the computation
of fetchTranscriptWithFallbackMethod equals the specification pipeline:
extract all text markup spans by pattern matching, strip the remaining
markup tags from each span, unescape the five standard entity references,
and join the results with a single space; in particular a span containing
the five escaped entities yields the five plain characters ampersand,
left angle, right angle, double quote, apostrophe. -/
theorem claim8_fallback_extraction :
    (∀ xml : String, fallbackParse xml = specFallbackPipeline xml)
    ∧ fallbackParse "<text>&amp;&lt;&gt;&quot;&#39;</text>" = "&<>\"\x27" :=
  ⟨fun _ => rfl, by decide⟩

/-- Claim C9: the entity unescaping of the fallback parser is performed by
five sequential global replacements with the ampersand entity replaced
first, so it is not a single-pass unescape: a span whose text content is
the escaped sequence amp-lt is double-unescaped to a plain left angle
bracket rather than to the literal lt entity that a single-pass unescape
would produce. -/
theorem claim9_sequential_double_unescape :
    unescapeFive "&amp;lt;" = "<"
    ∧ unescapeFive "&amp;lt;" ≠ "&lt;"
    ∧ fallbackParse "<text>&amp;lt;</text>" = "<" :=
  ⟨by decide, by decide, by decide⟩

end YT
